import Mathlib

/-!
Verification development for the VetAI triage session orchestrator.

The definitions below are a shallow embedding of the conversation
controller (conversation handler script) and of the Express server
(token endpoint).  Asynchronous network calls are modelled by passing
the observable response of each call as an explicit parameter
("oracle"); the side effects a run performs (HTTP requests issued,
delays awaited, assignments to module-level state) are recorded as
explicit event traces so that ordering and counting properties can be
stated and proved.
-/

namespace VetTriage

/-! ### Token endpoint (server: GET /api/token)

The handler reads channelName, uid and role from the query string,
checks the server-side signing credentials, coerces uid with
parseInt(uid) || 0 and role with role === "subscriber", and builds a
token whose privilege expiry is the current unix time plus 3600
seconds.  Query parameters and environment variables are optional
strings; JavaScript truthiness of a string (undefined or empty means
falsy) is modelled by strTruthy. -/

/-- Truthiness of an optional string value: absent and empty are falsy. -/
def strTruthy : Option String → Bool
  | none => false
  | some s => s ≠ ""

/-- Numeric value of a list of decimal digit characters. -/
def digitsVal (cs : List Char) : Nat :=
  cs.foldl (fun a c => a * 10 + (c.toNat - 48)) 0

/-- JavaScript parseInt with radix 10 on a string: skip leading
whitespace, read an optional sign, then the longest prefix of decimal
digits; none models NaN (no digits found). -/
def parseIntJs (s : String) : Option Int :=
  let cs := s.data.dropWhile Char.isWhitespace
  let signed : (List Char) → Bool → Option Int := fun digits neg =>
    let ds := digits.takeWhile Char.isDigit
    if ds.isEmpty then none
    else if neg then some (-(digitsVal ds : Int)) else some (digitsVal ds : Int)
  match cs with
  | '-' :: rest => signed rest true
  | '+' :: rest => signed rest false
  | rest => signed rest false

/-- Coercion parseInt(uid) || 0 of the parsed uid: NaN is replaced by
0 (and a parsed 0 stays 0). -/
def jsOrZero : Option Int → Int
  | none => 0
  | some n => n

/-- Role constants of the agora-token library. -/
inductive RtcRole where
  | publisher
  | subscriber
deriving DecidableEq

/-- Query string of a GET /api/token request; each field may be absent. -/
structure TokenQuery where
  channelName : Option String
  uid : Option String
  role : Option String

/-- Server-side environment: AGORA_APPID and AGORA_APPCERTIFICATE. -/
structure TokenEnv where
  appId : Option String
  appCertificate : Option String

/-- Abstract result of RtcTokenBuilder.buildTokenWithUid: the exact
arguments the handler passes to the builder, i.e. the scope and
expiry baked into the credential. -/
structure RtcTokenData where
  appId : String
  appCertificate : String
  channelName : String
  uid : Int
  role : RtcRole
  privilegeExpiredTs : Int
deriving DecidableEq

/-- Response of the token endpoint: a token, or an error status with a
message. -/
inductive TokenResponse where
  | ok (token : RtcTokenData)
  | err (status : Nat) (error : String)
deriving DecidableEq

/-- Shallow embedding of the GET /api/token handler.  now is the unix
timestamp Math.floor(Date.now() / 1000) observed by the handler. -/
def tokenHandler (env : TokenEnv) (q : TokenQuery) (now : Int) : TokenResponse :=
  if !(strTruthy env.appId) || !(strTruthy env.appCertificate) then
    .err 500 "Missing Agora credentials"
  else if !(strTruthy q.channelName) then
    .err 400 "channelName is required"
  else
    let userUid : Int := jsOrZero (parseIntJs (q.uid.getD ""))
    let tokenRole : RtcRole :=
      if q.role = some "subscriber" then .subscriber else .publisher
    let expirationTimeInSeconds : Int := 3600
    let privilegeExpiredTs : Int := now + expirationTimeInSeconds
    .ok ⟨env.appId.getD "", env.appCertificate.getD "", q.channelName.getD "",
         userUid, tokenRole, privilegeExpiredTs⟩

end VetTriage

namespace VetTriage

/-- C7: with the app id and certificate present and a non-empty
channelName, the /api/token handler returns a credential scoped to
exactly that channel, derived participant id and derived role, whose
privilege expiry equals the issue time plus 3600 seconds; and whenever
the app id or the certificate is missing, the handler answers the one
request with a fatal HTTP 500 error (there is no retry structure in
the handler: one request yields exactly this one terminal response). -/
theorem token_endpoint_scope_spec (env : TokenEnv) (q : TokenQuery) (now : Int) :
    (strTruthy env.appId = true → strTruthy env.appCertificate = true →
      strTruthy q.channelName = true →
      tokenHandler env q now =
        .ok ⟨env.appId.getD "", env.appCertificate.getD "", q.channelName.getD "",
             jsOrZero (parseIntJs (q.uid.getD "")),
             (if q.role = some "subscriber" then .subscriber else .publisher),
             now + 3600⟩ ∧
      ∀ t, tokenHandler env q now = .ok t → t.privilegeExpiredTs - now = 3600 ∧
        t.channelName = q.channelName.getD "") ∧
    ((strTruthy env.appId = false ∨ strTruthy env.appCertificate = false) →
      tokenHandler env q now = .err 500 "Missing Agora credentials") := by
  constructor
  · intro hA hC hCh
    constructor
    · simp [tokenHandler, hA, hC, hCh]
    · intro t ht
      simp [tokenHandler, hA, hC, hCh] at ht
      subst ht
      constructor
      · ring
      · rfl
  · intro h
    rcases h with h | h <;> simp [tokenHandler, h]

/-- Closed instance of token_endpoint_scope_spec discharging its
hypotheses at a concrete request. -/
theorem token_endpoint_scope_spec_witness :
    tokenHandler ⟨some "app", some "cert"⟩ ⟨some "vet-triage", some "10001", some "publisher"⟩ 17 =
      .ok ⟨"app", "cert", "vet-triage", 10001, .publisher, 3617⟩ := by
  have h := (token_endpoint_scope_spec ⟨some "app", some "cert"⟩
    ⟨some "vet-triage", some "10001", some "publisher"⟩ 17).1 (by decide) (by decide) (by decide)
  rw [h.1]
  decide

/-- C10: with credentials present and a non-empty channelName the
token endpoint never rejects a request on account of its role or uid
values: it always returns a token; any role other than exactly
"subscriber" (absent included) yields the publisher role, and any uid
that does not parse to a non-zero integer (absent or non-numeric
included) yields uid 0. -/
theorem token_endpoint_lenient_inputs (env : TokenEnv) (q : TokenQuery) (now : Int)
    (hA : strTruthy env.appId = true) (hC : strTruthy env.appCertificate = true)
    (hCh : strTruthy q.channelName = true) :
    ∃ t, tokenHandler env q now = .ok t ∧
      (q.role ≠ some "subscriber" → t.role = .publisher) ∧
      ((parseIntJs (q.uid.getD "") = none ∨ parseIntJs (q.uid.getD "") = some 0) →
        t.uid = 0) := by
  refine ⟨⟨env.appId.getD "", env.appCertificate.getD "", q.channelName.getD "",
      jsOrZero (parseIntJs (q.uid.getD "")),
      (if q.role = some "subscriber" then .subscriber else .publisher), now + 3600⟩,
    by simp [tokenHandler, hA, hC, hCh], ?_, ?_⟩
  · intro hrole
    simp [hrole]
  · intro huid
    rcases huid with h | h <;> simp [h, jsOrZero]

/-- Closed instance of token_endpoint_lenient_inputs: a request with a
non-numeric uid and an invalid role still gets a token, with uid 0 and
publisher role. -/
theorem token_endpoint_lenient_inputs_witness :
    ∃ t, tokenHandler ⟨some "app", some "cert"⟩ ⟨some "vet-triage", some "abc", some "viewer"⟩ 0 =
        .ok t ∧ t.role = .publisher ∧ t.uid = 0 := by
  obtain ⟨t, ht, hrole, huid⟩ := token_endpoint_lenient_inputs
    ⟨some "app", some "cert"⟩ ⟨some "vet-triage", some "abc", some "viewer"⟩ 0
    (by decide) (by decide) (by decide)
  exact ⟨t, ht, hrole (by decide), huid (by left; decide)⟩

/-! ### Agent controller: startVetConvoAI

startVetConvoAI mints a token for the agent uid, best-effort cleans up
a stale agent for the channel (POST /api/convo-ai/cleanup/:channel,
followed by a 1000 ms wait when that call answers ok), then POSTs
/api/convo-ai/start.  A 409 response whose JSON body carries the
conflicting agent_id triggers one cleanup-and-retry cycle: POST
/api/convo-ai/agents/:id/leave for the conflicting id, a 2000 ms wait,
and exactly one further create request; any failure of that retry is
terminal (the outer catch shows a toast and returns false).  The
network is an oracle: the observable outcome of each create request is
a parameter, and the run is summarised by the requests it issues (in
order), the values ever assigned to the module variable
agoraConvoTaskID, and the boolean the function returns. -/

/-- Observable outcome of one POST /api/convo-ai/start request: success
with an agent_id, a 409 conflict whose body may or may not expose the
conflicting agent_id, or any other failure. -/
inductive CreateResult where
  | ok (agentId : String)
  | conflict (agentId : Option String)
  | failed (message : String)
deriving DecidableEq

/-- Externally visible step of a startVetConvoAI run. -/
inductive StartEvent where
  | cleanupChannel (channel : String)
  | createAttempt
  | stopAgent (agentId : String)
  | delayMs (ms : Nat)
deriving DecidableEq

/-- Recogniser for create attempts. -/
def isCreateAttempt : StartEvent → Bool
  | .createAttempt => true
  | _ => false

/-- Recogniser for stop (agents/:id/leave) requests. -/
def isStopRequest : StartEvent → Bool
  | .stopAgent _ => true
  | _ => false

/-- Summary of a startVetConvoAI run: the boolean result, every value
assigned to agoraConvoTaskID during the run, and the ordered trace of
requests and waits. -/
structure StartOutcome where
  success : Bool
  storedHandles : List String
  events : List StartEvent
deriving DecidableEq

/-- Events of the best-effort pre-cleanup: the cleanup request, then a
1000 ms wait when the cleanup call answered ok. -/
def cleanupEvents (channel : String) (cleanupOk : Bool) : List StartEvent :=
  .cleanupChannel channel :: (if cleanupOk then [.delayMs 1000] else [])

/-- Shallow embedding of startVetConvoAI.  first is the outcome of the
initial create request; stopFetchOk tells whether the awaited leave
fetch for the conflicting agent resolved (when it rejects, the
rejection is caught by the inner catch and falls through to the outer
throw: no delay is awaited and no retry create request is issued);
retryOutcome is the outcome of the single retry, consulted only when
the first outcome is a conflict carrying the conflicting agent_id and
the stop fetch resolved. -/
def startVetConvoAI (channel : String) (cleanupOk : Bool) (first : CreateResult)
    (stopFetchOk : Bool) (retryOutcome : CreateResult) : StartOutcome :=
  let pre := cleanupEvents channel cleanupOk
  match first with
  | .ok agentId => ⟨true, [agentId], pre ++ [.createAttempt]⟩
  | .conflict none => ⟨false, [], pre ++ [.createAttempt]⟩
  | .conflict (some conflictId) =>
    if stopFetchOk then
      let evts := pre ++ [.createAttempt, .stopAgent conflictId, .delayMs 2000, .createAttempt]
      match retryOutcome with
      | .ok retryId => ⟨true, [retryId], evts⟩
      | _ => ⟨false, [], evts⟩
    else ⟨false, [], pre ++ [.createAttempt, .stopAgent conflictId]⟩
  | .failed _ => ⟨false, [], pre ++ [.createAttempt]⟩

/-! ### Teardown: stopConvoAI, leaveChannel, endConversation -/

/-- Summary of a stopConvoAI call: the agents/:id/leave requests it
issued, the value of agoraConvoTaskID afterwards, and whether an error
escaped the call (the catch swallows every failure, so threw is false
in every branch). -/
structure StopOutcome where
  requests : List String
  taskIDAfter : String
  threw : Bool
deriving DecidableEq

/-- Shallow embedding of stopConvoAI.  taskID is agoraConvoTaskID at
entry; stopOk tells whether the leave request answered ok.  An empty
taskID returns at once without any request; on a failed leave request
the thrown error is caught and the handle is left in place. -/
def stopConvoAI (taskID : String) (stopOk : Bool) : StopOutcome :=
  if taskID = "" then ⟨[], taskID, false⟩
  else if stopOk then ⟨[taskID], "", false⟩
  else ⟨[taskID], taskID, false⟩

/-- Externally visible step of a leaveChannel / endConversation run. -/
inductive TeardownEvent where
  | stopAudioTrack
  | closeAudioTrack
  | clearAudioTrack
  | stopVideoTrack
  | closeVideoTrack
  | clearVideoTrack
  | agentLeaveRequest (agentId : String)
  | transportLeave
  | clearRemoteUsers
  | persistSessionRecord
deriving DecidableEq

/-- Recogniser for local-media release events. -/
def isMediaEvent : TeardownEvent → Bool
  | .stopAudioTrack => true
  | .closeAudioTrack => true
  | .clearAudioTrack => true
  | .stopVideoTrack => true
  | .closeVideoTrack => true
  | .clearVideoTrack => true
  | _ => false

/-- Recogniser for the agent stop request. -/
def isAgentLeave : TeardownEvent → Bool
  | .agentLeaveRequest _ => true
  | _ => false

/-- Recogniser for the transport leave call. -/
def isTransportLeave : TeardownEvent → Bool
  | .transportLeave => true
  | _ => false

/-- Media release events of leaveChannel: stop, close and clear for
each track that is held, audio first. -/
def mediaEvents (hasAudio hasVideo : Bool) : List TeardownEvent :=
  (if hasAudio then [.stopAudioTrack, .closeAudioTrack, .clearAudioTrack] else [])
    ++ (if hasVideo then [.stopVideoTrack, .closeVideoTrack, .clearVideoTrack] else [])

/-- Summary of a leaveChannel (or endConversation) run: the ordered
event trace, whether a media handle is still held afterwards, the
agent handle afterwards, and whether an error escaped the call. -/
structure LeaveOutcome where
  events : List TeardownEvent
  audioTrackAfter : Bool
  videoTrackAfter : Bool
  taskIDAfter : String
  threw : Bool
deriving DecidableEq

/-- Shallow embedding of leaveChannel.  hasAudio / hasVideo tell which
local tracks are held at entry, taskID is agoraConvoTaskID, stopOk the
outcome of the agent leave request, hasClient whether a client object
exists, leaveOk whether client.leave() succeeded.  The body stops and
clears both local tracks, then awaits stopConvoAI (which never
throws), then awaits client.leave(); a failing leave rejects into the
outer catch, so the steps after it (clearing the remote registry) are
skipped but nothing propagates. -/
def leaveChannel (hasAudio hasVideo : Bool) (taskID : String)
    (stopOk hasClient leaveOk : Bool) : LeaveOutcome :=
  let stopOut := stopConvoAI taskID stopOk
  ⟨mediaEvents hasAudio hasVideo
      ++ stopOut.requests.map .agentLeaveRequest
      ++ (if hasClient then [.transportLeave] else [])
      ++ (if hasClient && !leaveOk then [] else [.clearRemoteUsers]),
    false, false, stopOut.taskIDAfter, false⟩

/-- Shallow embedding of endConversation: awaits leaveChannel (which
never throws), then stores the session record (subject profile,
timestamps, duration and real or mock summary) in sessionStorage. -/
def endConversation (hasAudio hasVideo : Bool) (taskID : String)
    (stopOk hasClient leaveOk : Bool) : LeaveOutcome :=
  let l := leaveChannel hasAudio hasVideo taskID stopOk hasClient leaveOk
  ⟨l.events ++ [.persistSessionRecord], l.audioTrackAfter, l.videoTrackAfter,
    l.taskIDAfter, false⟩

/-- Ordering of event kinds in a trace: every position whose event
satisfies P comes strictly before every position whose event satisfies
Q. -/
def precedes (t : List TeardownEvent) (P Q : TeardownEvent → Bool) : Prop :=
  ∀ i j ei ej, t.get? i = some ei → t.get? j = some ej →
    P ei = true → Q ej = true → i < j

/-- Order of a teardown trace as the specification states it: every
agent-stop request before every media release, and every media release
before the transport leave. -/
def agentThenMediaThenLeave (t : List TeardownEvent) : Prop :=
  precedes t isAgentLeave isMediaEvent ∧ precedes t isMediaEvent isTransportLeave

/-- Helper: in a trace split as A ++ B where no event of B satisfies P
and no event of A satisfies Q, every P event precedes every Q event. -/
theorem precedes_append (A B : List TeardownEvent) (P Q : TeardownEvent → Bool)
    (hB : ∀ e ∈ B, P e = false) (hA : ∀ e ∈ A, Q e = false) :
    precedes (A ++ B) P Q := by
  intro i j ei ej hi hj hP hQ
  by_cases hiA : i < A.length
  · by_cases hjA : j < A.length
    · rw [List.get?_append hjA] at hj
      have := hA ej (List.get?_mem hj)
      rw [this] at hQ
      exact absurd hQ (by simp)
    · omega
  · exfalso
    push_neg at hiA
    rw [List.get?_append_right hiA] at hi
    have := hB ei (List.get?_mem hi)
    rw [this] at hP
    exact absurd hP (by simp)

/-- C1 as stated is false on the code: in the concrete conflict run in
which the leave fetch for the conflicting agent rejects, the rejection
falls from the inner catch to the outer throw, so the run ends after
the stop request with no delay awaited and no retry create request —
a single create attempt in total, even though the retry, had it been
issued, would have succeeded.  The claimed universal "exactly one
cleanup-and-retry cycle with exactly one re-issued create request"
does not hold over every conflict run. -/
theorem startVetConvoAI_stop_rejection_aborts_cycle :
    (startVetConvoAI "vet-triage" false (.conflict (some "stale-agent")) false
        (.ok "new-agent")).events =
      [.cleanupChannel "vet-triage", .createAttempt, .stopAgent "stale-agent"] ∧
    (startVetConvoAI "vet-triage" false (.conflict (some "stale-agent")) false
        (.ok "new-agent")).events.countP isCreateAttempt = 1 ∧
    (∀ ms, StartEvent.delayMs ms ∉
      (startVetConvoAI "vet-triage" false (.conflict (some "stale-agent")) false
        (.ok "new-agent")).events) ∧
    (startVetConvoAI "vet-triage" false (.conflict (some "stale-agent")) false
        (.ok "new-agent")).success = false := by
  refine ⟨rfl, rfl, ?_, rfl⟩
  intro ms hm
  simp [startVetConvoAI, cleanupEvents] at hm

/-- C1 amended: when the create request answers 409 with the
conflicting agent_id in its body, startVetConvoAI attempts at most one
cleanup-and-retry cycle, bounded in both directions.  If the stop
fetch for the conflicting agent resolves, the trace (after the
best-effort pre-cleanup) is the first create attempt, a single stop
request for the conflicting agent, a fixed 2000 ms wait (at least 1
second), and exactly one further create attempt — exactly two create
attempts in total — and if that single retry does not succeed the run
returns the terminal failure false with no further create attempt.
If the stop fetch rejects, the cycle is aborted: the trace ends at the
stop request, with no delay, no retry, a single create attempt, and
the terminal failure false.  In every conflict run at most two create
requests and exactly one stop request are issued. -/
theorem startVetConvoAI_conflict_bounded_retry (channel conflictId : String)
    (cleanupOk stopFetchOk : Bool) (retryOutcome : CreateResult) :
    (stopFetchOk = true →
      (startVetConvoAI channel cleanupOk (.conflict (some conflictId)) stopFetchOk
          retryOutcome).events =
        cleanupEvents channel cleanupOk ++
          [.createAttempt, .stopAgent conflictId, .delayMs 2000, .createAttempt] ∧
      ((startVetConvoAI channel cleanupOk (.conflict (some conflictId)) stopFetchOk
          retryOutcome).events.countP isCreateAttempt) = 2 ∧
      (2000 : Nat) ≥ 1000 ∧
      ((∀ id, retryOutcome ≠ .ok id) →
        (startVetConvoAI channel cleanupOk (.conflict (some conflictId)) stopFetchOk
          retryOutcome).success = false)) ∧
    (stopFetchOk = false →
      (startVetConvoAI channel cleanupOk (.conflict (some conflictId)) stopFetchOk
          retryOutcome).events =
        cleanupEvents channel cleanupOk ++ [.createAttempt, .stopAgent conflictId] ∧
      ((startVetConvoAI channel cleanupOk (.conflict (some conflictId)) stopFetchOk
          retryOutcome).events.countP isCreateAttempt) = 1 ∧
      (∀ ms, StartEvent.delayMs ms ∉
        ((startVetConvoAI channel cleanupOk (.conflict (some conflictId)) stopFetchOk
          retryOutcome).events.drop (cleanupEvents channel cleanupOk).length)) ∧
      (startVetConvoAI channel cleanupOk (.conflict (some conflictId)) stopFetchOk
          retryOutcome).success = false) ∧
    ((startVetConvoAI channel cleanupOk (.conflict (some conflictId)) stopFetchOk
        retryOutcome).events.countP isCreateAttempt) ≤ 2 ∧
    ((startVetConvoAI channel cleanupOk (.conflict (some conflictId)) stopFetchOk
        retryOutcome).events.countP isStopRequest) = 1 := by
  have hcount2 : stopFetchOk = true →
      ((startVetConvoAI channel cleanupOk (.conflict (some conflictId)) stopFetchOk
        retryOutcome).events.countP isCreateAttempt) = 2 := by
    intro h
    subst h
    cases retryOutcome <;> cases cleanupOk <;>
      simp [startVetConvoAI, cleanupEvents, List.countP_append, List.countP_cons, isCreateAttempt]
  have hcount1 : stopFetchOk = false →
      ((startVetConvoAI channel cleanupOk (.conflict (some conflictId)) stopFetchOk
        retryOutcome).events.countP isCreateAttempt) = 1 := by
    intro h
    subst h
    cases cleanupOk <;>
      simp [startVetConvoAI, cleanupEvents, List.countP_append, List.countP_cons, isCreateAttempt]
  refine ⟨?_, ?_, ?_, ?_⟩
  · intro h
    subst h
    refine ⟨?_, hcount2 rfl, by norm_num, ?_⟩
    · cases retryOutcome <;> rfl
    · intro hfail
      cases retryOutcome with
      | ok id => exact absurd rfl (hfail id)
      | conflict a => rfl
      | failed m => rfl
  · intro h
    subst h
    refine ⟨rfl, hcount1 rfl, ?_, rfl⟩
    intro ms hm
    have : (startVetConvoAI channel cleanupOk (.conflict (some conflictId)) false
        retryOutcome).events =
        cleanupEvents channel cleanupOk ++ [.createAttempt, .stopAgent conflictId] := rfl
    rw [this, List.drop_append_of_le_length (le_refl _), List.drop_length] at hm
    simp at hm
  · cases stopFetchOk
    · rw [hcount1 rfl]
      omega
    · rw [hcount2 rfl]
  · cases stopFetchOk <;> cases retryOutcome <;> cases cleanupOk <;>
      simp [startVetConvoAI, cleanupEvents, List.countP_append, List.countP_cons, isStopRequest]

/-- Closed instance of startVetConvoAI_conflict_bounded_retry
discharging both branch hypotheses: with the stop fetch resolving and
a second conflict on retry there are exactly two create attempts and
the terminal failure false; with the stop fetch rejecting there is a
single create attempt and the terminal failure false. -/
theorem startVetConvoAI_conflict_bounded_retry_witness :
    (startVetConvoAI "vet-triage" true (.conflict (some "stale-agent")) true
        (.conflict (some "stale-agent"))).events =
      [.cleanupChannel "vet-triage", .delayMs 1000, .createAttempt,
       .stopAgent "stale-agent", .delayMs 2000, .createAttempt] ∧
    (startVetConvoAI "vet-triage" true (.conflict (some "stale-agent")) true
        (.conflict (some "stale-agent"))).success = false ∧
    (startVetConvoAI "vet-triage" true (.conflict (some "stale-agent")) false
        (.conflict (some "stale-agent"))).events.countP isCreateAttempt = 1 := by
  have h := startVetConvoAI_conflict_bounded_retry "vet-triage" "stale-agent" true true
    (.conflict (some "stale-agent"))
  have h' := startVetConvoAI_conflict_bounded_retry "vet-triage" "stale-agent" true false
    (.conflict (some "stale-agent"))
  obtain ⟨htrace, _, _, hfail⟩ := h.1 rfl
  exact ⟨by rw [htrace]; rfl, hfail (fun id hcontra => by cases hcontra),
    (h'.2.1 rfl).2.1⟩

/-- C9: when the first create attempt returns a conflict carrying an
agent_id and the single retry succeeds, the run succeeds, the only
value ever stored in agoraConvoTaskID is the agent_id of the retry
response (so at most one handle is ever recorded), the conflicting id
is used exactly once, for the stop request, and it is never stored as
the handle. -/
theorem startVetConvoAI_single_handle (channel conflictId retryId : String)
    (cleanupOk : Bool) :
    (startVetConvoAI channel cleanupOk (.conflict (some conflictId)) true (.ok retryId)).success =
      true ∧
    (startVetConvoAI channel cleanupOk (.conflict (some conflictId)) true (.ok retryId)).storedHandles =
      [retryId] ∧
    (startVetConvoAI channel cleanupOk (.conflict (some conflictId)) true (.ok retryId)).storedHandles.length ≤ 1 ∧
    StartEvent.stopAgent conflictId ∈
      (startVetConvoAI channel cleanupOk (.conflict (some conflictId)) true (.ok retryId)).events ∧
    (∀ x, StartEvent.stopAgent x ∈
      (startVetConvoAI channel cleanupOk (.conflict (some conflictId)) true (.ok retryId)).events →
      x = conflictId) ∧
    (conflictId ≠ retryId →
      conflictId ∉
        (startVetConvoAI channel cleanupOk (.conflict (some conflictId)) true (.ok retryId)).storedHandles) := by
  refine ⟨rfl, rfl, by simp [startVetConvoAI], ?_, ?_, ?_⟩
  · simp [startVetConvoAI]
  · intro x hx
    cases cleanupOk <;> simp [startVetConvoAI, cleanupEvents] at hx <;> exact hx
  · intro hne
    simp [startVetConvoAI, hne]

/-- Closed instance of startVetConvoAI_single_handle at concrete ids:
only the retry agent_id is stored and the conflicting id is not. -/
theorem startVetConvoAI_single_handle_witness :
    (startVetConvoAI "vet-triage" false (.conflict (some "old-agent")) true (.ok "new-agent")).storedHandles =
      ["new-agent"] ∧
    "old-agent" ∉
      (startVetConvoAI "vet-triage" false (.conflict (some "old-agent")) true (.ok "new-agent")).storedHandles := by
  have h := startVetConvoAI_single_handle "vet-triage" "old-agent" "new-agent" false
  exact ⟨h.2.1, h.2.2.2.2.2 (by decide)⟩

/-- C6: stopConvoAI is a no-op returning without error when no agent
handle is recorded; with a handle recorded it issues the leave request
for exactly that handle, clears the handle exactly when the request
succeeds, and never propagates a failure; and inside leaveChannel the
transport leave still runs after a failed agent stop. -/
theorem stopConvoAI_spec (taskID : String) (stopOk : Bool)
    (hasAudio hasVideo leaveOk : Bool) :
    (taskID = "" → stopConvoAI taskID stopOk = ⟨[], "", false⟩) ∧
    (taskID ≠ "" →
      (stopConvoAI taskID stopOk).requests = [taskID] ∧
      (stopOk = true → (stopConvoAI taskID stopOk).taskIDAfter = "") ∧
      (stopOk = false → (stopConvoAI taskID stopOk).taskIDAfter = taskID)) ∧
    (stopConvoAI taskID stopOk).threw = false ∧
    TeardownEvent.transportLeave ∈
      (leaveChannel hasAudio hasVideo taskID stopOk true leaveOk).events := by
  refine ⟨?_, ?_, ?_, ?_⟩
  · intro h
    subst h
    rfl
  · intro h
    refine ⟨?_, ?_, ?_⟩
    · cases stopOk <;> simp [stopConvoAI, h]
    · intro hOk
      subst hOk
      simp [stopConvoAI, h]
    · intro hOk
      subst hOk
      simp [stopConvoAI, h]
  · by_cases h : taskID = "" <;> cases stopOk <;> simp [stopConvoAI, h]
  · simp [leaveChannel]

/-- Closed instance of stopConvoAI_spec: with a recorded handle and a
failing leave request, the request targets exactly that handle, the
handle is kept, nothing propagates, and the transport leave still
happens. -/
theorem stopConvoAI_spec_witness :
    (stopConvoAI "agent-7" false).requests = ["agent-7"] ∧
    (stopConvoAI "agent-7" false).taskIDAfter = "agent-7" ∧
    (stopConvoAI "agent-7" false).threw = false ∧
    TeardownEvent.transportLeave ∈ (leaveChannel true true "agent-7" false true true).events := by
  have h := stopConvoAI_spec "agent-7" false true true true
  obtain ⟨hreq, hkeep, hkept⟩ := h.2.1 (by decide)
  exact ⟨hreq, hkept rfl, h.2.2.1, h.2.2.2⟩

/-- C5: in every leaveChannel run each held local media resource is
stopped, closed and cleared strictly before the transport leave call
is issued (so also when the transport leave subsequently fails), the
run holds no media handle afterwards (also when zero tracks were
held), and no error escapes. -/
theorem leaveChannel_media_release_first (hasAudio hasVideo : Bool) (taskID : String)
    (stopOk hasClient leaveOk : Bool) :
    precedes (leaveChannel hasAudio hasVideo taskID stopOk hasClient leaveOk).events
      isMediaEvent isTransportLeave ∧
    (hasAudio = true →
      TeardownEvent.stopAudioTrack ∈
          (leaveChannel hasAudio hasVideo taskID stopOk hasClient leaveOk).events ∧
        TeardownEvent.closeAudioTrack ∈
          (leaveChannel hasAudio hasVideo taskID stopOk hasClient leaveOk).events ∧
        TeardownEvent.clearAudioTrack ∈
          (leaveChannel hasAudio hasVideo taskID stopOk hasClient leaveOk).events) ∧
    (hasVideo = true →
      TeardownEvent.stopVideoTrack ∈
          (leaveChannel hasAudio hasVideo taskID stopOk hasClient leaveOk).events ∧
        TeardownEvent.closeVideoTrack ∈
          (leaveChannel hasAudio hasVideo taskID stopOk hasClient leaveOk).events ∧
        TeardownEvent.clearVideoTrack ∈
          (leaveChannel hasAudio hasVideo taskID stopOk hasClient leaveOk).events) ∧
    (leaveChannel hasAudio hasVideo taskID stopOk hasClient leaveOk).audioTrackAfter = false ∧
    (leaveChannel hasAudio hasVideo taskID stopOk hasClient leaveOk).videoTrackAfter = false ∧
    (leaveChannel hasAudio hasVideo taskID stopOk hasClient leaveOk).threw = false := by
  refine ⟨?_, ?_, ?_, rfl, rfl, rfl⟩
  · have : (leaveChannel hasAudio hasVideo taskID stopOk hasClient leaveOk).events =
        mediaEvents hasAudio hasVideo ++
          ((stopConvoAI taskID stopOk).requests.map .agentLeaveRequest
            ++ (if hasClient then [.transportLeave] else [])
            ++ (if hasClient && !leaveOk then [] else [.clearRemoteUsers])) := by
      simp [leaveChannel]
    rw [this]
    apply precedes_append
    · intro e he
      simp only [List.mem_append] at he
      rcases he with (he | he) | he
      · rcases List.mem_map.mp he with ⟨a, _, rfl⟩
        rfl
      · rcases hasClient <;> simp_all [isMediaEvent]
      · rcases hasClient <;> rcases leaveOk <;> simp_all [isMediaEvent]
    · intro e he
      simp only [mediaEvents, List.mem_append] at he
      rcases he with he | he <;> rcases hasAudio <;> rcases hasVideo <;>
        simp_all [isTransportLeave] <;> rcases he with rfl | rfl | rfl <;> rfl
  · intro h
    subst h
    simp [leaveChannel, mediaEvents]
  · intro h
    subst h
    rcases hasAudio <;> simp [leaveChannel, mediaEvents]

/-- Closed instance of leaveChannel_media_release_first with both
tracks held and a failing transport leave: the media events still all
occur and precede the transport leave. -/
theorem leaveChannel_media_release_first_witness :
    precedes (leaveChannel true true "agent-1" true true false).events
      isMediaEvent isTransportLeave ∧
    TeardownEvent.stopAudioTrack ∈ (leaveChannel true true "agent-1" true true false).events ∧
    TeardownEvent.stopVideoTrack ∈ (leaveChannel true true "agent-1" true true false).events := by
  have h := leaveChannel_media_release_first true true "agent-1" true true false
  exact ⟨h.1, (h.2.1 rfl).1, (h.2.2.1 rfl).1⟩

/-- C3 as stated is false on the code: in the concrete finalization
run with both tracks held, a recorded agent handle and a working
transport, the trace stops and closes the local media tracks before
the agent-stop request, so the teardown does not run agent stop first,
then media release, then transport leave. -/
theorem teardown_agent_first_refuted :
    (endConversation true true "agent-1" true true true).events =
      [.stopAudioTrack, .closeAudioTrack, .clearAudioTrack,
       .stopVideoTrack, .closeVideoTrack, .clearVideoTrack,
       .agentLeaveRequest "agent-1", .transportLeave, .clearRemoteUsers,
       .persistSessionRecord] ∧
    ¬ agentThenMediaThenLeave (endConversation true true "agent-1" true true true).events := by
  constructor
  · rfl
  · intro h
    have h6 : (endConversation true true "agent-1" true true true).events.get? 6 =
        some (.agentLeaveRequest "agent-1") := rfl
    have h0 : (endConversation true true "agent-1" true true true).events.get? 0 =
        some .stopAudioTrack := rfl
    have := h.1 6 0 (.agentLeaveRequest "agent-1") .stopAudioTrack h6 h0 rfl rfl
    omega

/-- C3 amended: in every finalization run (endConversation, and hence
leaveChannel) the teardown order is fixed regardless of how the intake
sequencing ended, but it is: the local media tracks are stopped and
closed first, then the AI agent is stopped, then the transport channel
is left. -/
theorem teardown_media_agent_transport_order (hasAudio hasVideo : Bool) (taskID : String)
    (stopOk hasClient leaveOk : Bool) :
    precedes (endConversation hasAudio hasVideo taskID stopOk hasClient leaveOk).events
      isMediaEvent isAgentLeave ∧
    precedes (endConversation hasAudio hasVideo taskID stopOk hasClient leaveOk).events
      isAgentLeave isTransportLeave ∧
    precedes (endConversation hasAudio hasVideo taskID stopOk hasClient leaveOk).events
      isMediaEvent isTransportLeave := by
  have hsplit1 : (endConversation hasAudio hasVideo taskID stopOk hasClient leaveOk).events =
      mediaEvents hasAudio hasVideo ++
        ((stopConvoAI taskID stopOk).requests.map .agentLeaveRequest
          ++ (if hasClient then [.transportLeave] else [])
          ++ (if hasClient && !leaveOk then [] else [.clearRemoteUsers])
          ++ [.persistSessionRecord]) := by
    simp [endConversation, leaveChannel]
  have hsplit2 : (endConversation hasAudio hasVideo taskID stopOk hasClient leaveOk).events =
      (mediaEvents hasAudio hasVideo
          ++ (stopConvoAI taskID stopOk).requests.map .agentLeaveRequest) ++
        ((if hasClient then [.transportLeave] else [])
          ++ (if hasClient && !leaveOk then [] else [.clearRemoteUsers])
          ++ [.persistSessionRecord]) := by
    simp [endConversation, leaveChannel]
  have hMediaNotAgent : ∀ e ∈ mediaEvents hasAudio hasVideo, isAgentLeave e = false := by
    intro e he
    simp only [mediaEvents, List.mem_append] at he
    rcases he with he | he <;> rcases hasAudio <;> rcases hasVideo <;>
      simp_all [isAgentLeave] <;> rcases he with rfl | rfl | rfl <;> rfl
  have hMediaNotLeave : ∀ e ∈ mediaEvents hasAudio hasVideo, isTransportLeave e = false := by
    intro e he
    simp only [mediaEvents, List.mem_append] at he
    rcases he with he | he <;> rcases hasAudio <;> rcases hasVideo <;>
      simp_all [isTransportLeave] <;> rcases he with rfl | rfl | rfl <;> rfl
  have hAgentShape : ∀ e ∈ (stopConvoAI taskID stopOk).requests.map
      (TeardownEvent.agentLeaveRequest), isMediaEvent e = false ∧ isTransportLeave e = false := by
    intro e he
    rcases List.mem_map.mp he with ⟨a, _, rfl⟩
    exact ⟨rfl, rfl⟩
  have hTailNoMedia : ∀ e ∈ ((if hasClient then [TeardownEvent.transportLeave] else [])
      ++ (if hasClient && !leaveOk then [] else [TeardownEvent.clearRemoteUsers])
      ++ [TeardownEvent.persistSessionRecord]), isMediaEvent e = false ∧ isAgentLeave e = false := by
    intro e he
    simp only [List.mem_append] at he
    rcases he with (he | he) | he
    · rcases hasClient <;> simp_all [isMediaEvent, isAgentLeave]
    · rcases hasClient <;> rcases leaveOk <;> simp_all [isMediaEvent, isAgentLeave]
    · simp_all [isMediaEvent, isAgentLeave]
  refine ⟨?_, ?_, ?_⟩
  · rw [hsplit1]
    apply precedes_append
    · intro e he
      simp only [List.mem_append] at he
      rcases he with ((he | he) | he) | he
      · exact (hAgentShape e he).1
      · exact (hTailNoMedia e (by simp only [List.mem_append]; exact Or.inl (Or.inl he))).1
      · exact (hTailNoMedia e (by simp only [List.mem_append]; exact Or.inl (Or.inr he))).1
      · exact (hTailNoMedia e (by simp only [List.mem_append]; exact Or.inr he)).1
    · exact hMediaNotAgent
  · rw [hsplit2]
    apply precedes_append
    · intro e he
      exact (hTailNoMedia e he).2
    · intro e he
      simp only [List.mem_append] at he
      rcases he with he | he
      · exact hMediaNotLeave e he
      · exact (hAgentShape e he).2
  · rw [hsplit1]
    apply precedes_append
    · intro e he
      simp only [List.mem_append] at he
      rcases he with ((he | he) | he) | he
      · exact (hAgentShape e he).1
      · exact (hTailNoMedia e (by simp only [List.mem_append]; exact Or.inl (Or.inl he))).1
      · exact (hTailNoMedia e (by simp only [List.mem_append]; exact Or.inl (Or.inr he))).1
      · exact (hTailNoMedia e (by simp only [List.mem_append]; exact Or.inr he)).1
    · exact hMediaNotLeave

/-- Closed instance of teardown_media_agent_transport_order at the
same concrete run as the counterexample. -/
theorem teardown_media_agent_transport_order_witness :
    precedes (endConversation true true "agent-1" true true true).events
      isMediaEvent isAgentLeave ∧
    precedes (endConversation true true "agent-1" true true true).events
      isAgentLeave isTransportLeave := by
  have h := teardown_media_agent_transport_order true true "agent-1" true true true
  exact ⟨h.1, h.2.1⟩

/-! ### Listening window: waitForUserResponse

waitForUserResponse resolves a question\x27s listening window.  A
setTimeout of 15000 ms resolves with the placeholder text (the timeout
sentinel) if nothing resolved earlier.  When a local audio track is
held, an analyser polls the live input energy (one sample per
requestAnimationFrame callback): a sample above the threshold 25 marks
a voice burst and resets the silence counter; a sample at or below the
threshold after a burst increments the counter, and when the counter
exceeds 50 consecutive silent polls the promise resolves early with
the voice-completed text.  The poll cadence is environment driven; the
embedding makes it an explicit parameter pollMs, with poll k happening
at time k * pollMs, and only polls strictly before the 15000 ms
timeout can run. -/

/-- Energy threshold above which a sample counts as voice. -/
def voiceThreshold : Nat := 25

/-- Number of consecutive silent polls the counter must exceed before
the response is declared complete (the code comments this as roughly
5 seconds of silence at the polling cadence). -/
def silenceLimit : Nat := 50

/-- Absolute per-question timeout in milliseconds. -/
def absoluteTimeoutMs : Nat := 15000

/-- One poll of the checkAudio loop: state is (voiceDetected,
silenceCount). -/
def monitorStep (vd : Bool) (sc : Nat) (energy : Nat) : Bool × Nat :=
  if energy > voiceThreshold then (true, 0)
  else if vd then (vd, sc + 1)
  else (vd, sc)

/-- Analyser state after the first k polls, where poll j reads sample
energies j. -/
def monitor (energies : Nat → Nat) : Nat → Bool × Nat
  | 0 => (false, 0)
  | k + 1 =>
    let s := monitor energies k
    monitorStep s.1 s.2 (energies (k + 1))

/-- Whether poll k makes the silence counter cross the limit, ending
the response. -/
def silenceDone (energies : Nat → Nat) (k : Nat) : Bool :=
  decide (silenceLimit < (monitor energies k).2)

/-- Number of polls that can run before the absolute timeout: the
greatest k with k * pollMs < absoluteTimeoutMs (zero when pollMs is
zero, meaning no poll is modelled). -/
def pollBudget (pollMs : Nat) : Nat := (absoluteTimeoutMs - 1) / pollMs

/-- First poll index in [start, start + fuel) at which silenceDone
holds. -/
def searchDone (energies : Nat → Nat) : Nat → Nat → Option Nat
  | _, 0 => none
  | start, fuel + 1 =>
    if silenceDone energies start then some start
    else searchDone energies (start + 1) fuel

/-- First poll, among the polls that can run before the timeout, at
which the silence counter crosses the limit. -/
def detectPoll (pollMs : Nat) (energies : Nat → Nat) : Option Nat :=
  searchDone energies 1 (pollBudget pollMs)

/-- Placeholder resolution text of the 15 second timeout. -/
def timeoutSentinel (questionNumber : Nat) : String :=
  s!"Response received for question {questionNumber}"

/-- Resolution text of the early silence-detection path. -/
def voiceCompleteMsg (questionNumber : Nat) : String :=
  s!"Voice response completed for question {questionNumber}"

/-- Shallow embedding of waitForUserResponse: the pair of the
resolution time in milliseconds and the resolution text.  Without an
audio track only the absolute timeout can resolve; with one, the
promise resolves at the first silence-completion poll if any poll
before the timeout completes, and at the timeout otherwise. -/
def waitForUserResponse (questionNumber : Nat) (hasAudio : Bool) (pollMs : Nat)
    (energies : Nat → Nat) : Nat × String :=
  if hasAudio then
    match detectPoll pollMs energies with
    | some k => (k * pollMs, voiceCompleteMsg questionNumber)
    | none => (absoluteTimeoutMs, timeoutSentinel questionNumber)
  else (absoluteTimeoutMs, timeoutSentinel questionNumber)

/-- A state with a crossed silence counter has seen a voice burst:
while voiceDetected is false the counter stays zero, and voiceDetected
only becomes true on a sample above the threshold. -/
theorem monitor_burst (energies : Nat → Nat) :
    ∀ k, ((monitor energies k).1 = false → (monitor energies k).2 = 0) ∧
      ((monitor energies k).1 = true →
        ∃ j, 1 ≤ j ∧ j ≤ k ∧ energies j > voiceThreshold) := by
  intro k
  induction k with
  | zero => exact ⟨fun _ => rfl, fun h => by simp [monitor] at h⟩
  | succ k ih =>
    by_cases he : energies (k + 1) > voiceThreshold
    · refine ⟨?_, ?_⟩
      · intro h
        simp [monitor, monitorStep, he] at h
      · intro _
        exact ⟨k + 1, by omega, le_refl _, he⟩
    · have hm : monitor energies (k + 1) =
          (if (monitor energies k).1 then ((monitor energies k).1, (monitor energies k).2 + 1)
            else ((monitor energies k).1, (monitor energies k).2)) := by
        simp [monitor, monitorStep, he]
      by_cases hv : (monitor energies k).1 = true
      · refine ⟨?_, ?_⟩
        · intro h
          rw [hm, if_pos hv] at h
          simp [hv] at h
        · intro _
          obtain ⟨j, h1, h2, h3⟩ := ih.2 hv
          exact ⟨j, h1, Nat.le_succ_of_le h2, h3⟩
      · have hv' : (monitor energies k).1 = false := by
          cases h : (monitor energies k).1
          · rfl
          · exact absurd h hv
        refine ⟨?_, ?_⟩
        · intro _
          rw [hm, if_neg (by simp [hv'])]
          exact ih.1 hv'
        · intro h
          rw [hm, if_neg (by simp [hv'])] at h
          simp [hv'] at h

/-- The silence counter grows by at most one per poll, and the samples
it counts are all silent: every poll m with k - sc < m ≤ k (where sc
is the counter after poll k) read a sample at or below the
threshold. -/
theorem monitor_trailing_silence (energies : Nat → Nat) :
    ∀ k m, k - (monitor energies k).2 < m → m ≤ k → energies m ≤ voiceThreshold := by
  intro k
  induction k with
  | zero => intro m h1 h2; omega
  | succ k ih =>
    intro m h1 h2
    by_cases he : energies (k + 1) > voiceThreshold
    · have : (monitor energies (k + 1)).2 = 0 := by
        simp [monitor, monitorStep, he]
      omega
    · rcases Nat.lt_or_ge m (k + 1) with hm | hm
      · have hle : (monitor energies (k + 1)).2 ≤ (monitor energies k).2 + 1 := by
          simp only [monitor, monitorStep]
          rw [if_neg he]
          by_cases hv : (monitor energies k).1 <;> simp [hv]
        exact ih m (by omega) (by omega)
      · have : m = k + 1 := by omega
        subst this
        omega

/-- Values produced by searchDone lie in the searched interval,
satisfy silenceDone, and are least there; a none answer means no index
of the interval satisfies silenceDone. -/
theorem searchDone_spec (energies : Nat → Nat) :
    ∀ fuel start,
      (∀ k, searchDone energies start fuel = some k →
        silenceDone energies k = true ∧ start ≤ k ∧ k < start + fuel ∧
          ∀ m, start ≤ m → m < k → silenceDone energies m = false) ∧
      (searchDone energies start fuel = none →
        ∀ m, start ≤ m → m < start + fuel → silenceDone energies m = false) := by
  intro fuel
  induction fuel with
  | zero =>
    intro start
    exact ⟨fun k h => by simp [searchDone] at h, fun _ m h1 h2 => by omega⟩
  | succ fuel ih =>
    intro start
    by_cases hs : silenceDone energies start = true
    · refine ⟨?_, ?_⟩
      · intro k hk
        simp [searchDone, hs] at hk
        subst hk
        exact ⟨hs, le_refl _, by omega, fun m h1 h2 => by omega⟩
      · intro hk
        simp [searchDone, hs] at hk
    · have hs' : silenceDone energies start = false := by
        cases h : silenceDone energies start
        · rfl
        · exact absurd h hs
      have hstep : searchDone energies start (fuel + 1) =
          searchDone energies (start + 1) fuel := by
        simp [searchDone, hs']
      refine ⟨?_, ?_⟩
      · intro k hk
        rw [hstep] at hk
        obtain ⟨h1, h2, h3, h4⟩ := (ih (start + 1)).1 k hk
        refine ⟨h1, by omega, by omega, ?_⟩
        intro m hm1 hm2
        rcases Nat.lt_or_ge m (start + 1) with hm | hm
        · have : m = start := by omega
          subst this
          exact hs'
        · exact h4 m hm hm2
      · intro hk m h1 h2
        rw [hstep] at hk
        rcases Nat.lt_or_ge m (start + 1) with hm | hm
        · have : m = start := by omega
          subst this
          exact hs'
        · exact (ih (start + 1)).2 hk m hm (by omega)

/-- Polls within the budget happen strictly before the absolute
timeout. -/
theorem pollBudget_lt (pollMs k : Nat) (hp : 0 < pollMs) (hk : k ≤ pollBudget pollMs) :
    k * pollMs < absoluteTimeoutMs := by
  have : k * pollMs ≤ absoluteTimeoutMs - 1 := by
    have := (Nat.le_div_iff_mul_le hp).mp hk
    simpa [pollBudget] using this
  simp only [absoluteTimeoutMs] at this ⊢
  omega

/-- C8: for every question, waitForUserResponse resolves at exactly
the earlier of the two designed events and never before either: it
never resolves later than the absolute 15000 ms timeout; without an
audio track it resolves at exactly the timeout with the sentinel text;
with one, if some poll before the timeout completes the response then
the resolution happens at the first such poll (strictly before 15000
ms), that poll has a silence counter past the limit whose counted
trailing polls are all at or below the energy threshold, a voice burst
above the threshold happened at some earlier or equal poll, and no
earlier poll completed; and if no poll before the timeout completes
the response, it resolves at exactly 15000 ms with the timeout
sentinel, so it never hangs on silence. -/
theorem waitForUserResponse_spec (questionNumber : Nat) (hasAudio : Bool)
    (pollMs : Nat) (energies : Nat → Nat) (hp : 0 < pollMs) :
    (waitForUserResponse questionNumber hasAudio pollMs energies).1 ≤ absoluteTimeoutMs ∧
    (hasAudio = false →
      waitForUserResponse questionNumber hasAudio pollMs energies =
        (absoluteTimeoutMs, timeoutSentinel questionNumber)) ∧
    (hasAudio = true →
      (∀ k, detectPoll pollMs energies = some k →
        waitForUserResponse questionNumber hasAudio pollMs energies =
          (k * pollMs, voiceCompleteMsg questionNumber) ∧
        k * pollMs < absoluteTimeoutMs ∧
        silenceDone energies k = true ∧
        (∃ j, 1 ≤ j ∧ j ≤ k ∧ energies j > voiceThreshold) ∧
        (∀ m, 1 ≤ m → k - silenceLimit ≤ m → m ≤ k → energies m ≤ voiceThreshold) ∧
        (∀ m, 1 ≤ m → m < k → silenceDone energies m = false)) ∧
      (detectPoll pollMs energies = none →
        waitForUserResponse questionNumber hasAudio pollMs energies =
          (absoluteTimeoutMs, timeoutSentinel questionNumber) ∧
        ∀ m, 1 ≤ m → m * pollMs < absoluteTimeoutMs →
          silenceDone energies m = false)) := by
  refine ⟨?_, ?_, ?_⟩
  · cases hasAudio with
    | false => simp [waitForUserResponse]
    | true =>
      simp only [waitForUserResponse, if_pos rfl]
      cases hd : detectPoll pollMs energies with
      | none => simp
      | some k =>
        simp only
        obtain ⟨_, _, h3, _⟩ := (searchDone_spec energies (pollBudget pollMs) 1).1 k hd
        exact le_of_lt (pollBudget_lt pollMs k hp (by omega))
  · intro h
    subst h
    rfl
  · intro h
    subst h
    refine ⟨?_, ?_⟩
    · intro k hd
      obtain ⟨h1, h2, h3, h4⟩ := (searchDone_spec energies (pollBudget pollMs) 1).1 k hd
      have hburst : ∃ j, 1 ≤ j ∧ j ≤ k ∧ energies j > voiceThreshold := by
        have hsc : silenceLimit < (monitor energies k).2 := by
          simpa [silenceDone] using h1
        have hvd : (monitor energies k).1 = true := by
          cases hv : (monitor energies k).1
          · have := (monitor_burst energies k).1 hv
            omega
          · rfl
        exact (monitor_burst energies k).2 hvd
      refine ⟨by simp [waitForUserResponse, hd], pollBudget_lt pollMs k hp (by omega),
        h1, hburst, ?_, fun m hm1 hm2 => h4 m hm1 hm2⟩
      intro m hm0 hm1 hm2
      have hsc : silenceLimit < (monitor energies k).2 := by
        simpa [silenceDone] using h1
      exact monitor_trailing_silence energies k m
        (by simp only [silenceLimit] at hm1 hsc; omega) hm2
    · intro hd
      refine ⟨by simp [waitForUserResponse, hd], ?_⟩
      intro m hm1 hm2
      have hm3 : m ≤ pollBudget pollMs := by
        have : m * pollMs ≤ absoluteTimeoutMs - 1 := by
          simp only [absoluteTimeoutMs] at hm2 ⊢
          omega
        exact (Nat.le_div_iff_mul_le hp).mpr this
      exact (searchDone_spec energies (pollBudget pollMs) 1).2 hd m hm1 (by omega)

/-- Closed instance of waitForUserResponse_spec: with a 100 ms poll
cadence, a single voice burst at the first poll and silence afterwards,
the window resolves at poll 52 (5200 ms, the first poll whose silence
counter exceeds 50), strictly before the 15000 ms timeout. -/
theorem waitForUserResponse_spec_witness :
    0 < 100 ∧
    waitForUserResponse 3 true 100 (fun j => if j = 1 then 30 else 0) =
      (5200, voiceCompleteMsg 3) := by
  refine ⟨by norm_num, ?_⟩
  have hd : detectPoll 100 (fun j => if j = 1 then 30 else 0) = some 52 := by decide
  have h := ((waitForUserResponse_spec 3 true 100 (fun j => if j = 1 then 30 else 0)
    (by norm_num)).2.2 rfl).1 52 hd
  simpa using h.1

/-! ### Question sequencer: startOpenAIQuestioningSequence

The sequencer iterates over a fixed list of six texts (an introduction
at index 0 followed by questions 1 to 5).  For i = 0 it only speaks
the introduction; for each question i = 1..5 it speaks the prompt,
awaits waitForUserResponse, and pushes a response record.  Each
iteration body is wrapped in a try/catch that logs and advances, so a
prompt playback rejection (the Audio element error path of
playOpenAITTS, which is not caught inside playOpenAITTS because the
promise is returned, not awaited, under its try) skips the push for
that question.  The oracle for one question bundles that error flag
with the listening-window inputs. -/

/-- Fixed text list of the sequencer: introduction plus the five
questions, in presentation order. -/
def questions : List String :=
  ["Hello! I\x27m your AI veterinary triage assistant. I\x27ll ask you 5 important questions about your pet to better understand their health concerns.",
   "Question 1: What is your pet\x27s name and breed?",
   "Question 2: Is your pet spayed or neutered?",
   "Question 3: Does your pet have any existing medical conditions?",
   "Question 4: Is your pet currently taking any medications or supplements?",
   "Question 5: What is the main issue you are concerned about with your pet? Can you describe the symptoms?"]

/-- Number of questions that capture a response. -/
def questionCount : Nat := 5

/-- Oracle for one question of the loop: whether the awaited prompt
playback rejects (skipping the push through the per-iteration catch),
and the listening-window inputs of waitForUserResponse. -/
structure IterInput where
  promptError : Bool
  hasAudio : Bool
  pollMs : Nat
  energies : Nat → Nat

/-- One captured question/answer record, as pushed onto the responses
array: the loop ordinal (the questionNumber variable), the exact
prompt text, and the captured response text. -/
structure IntakeTurn where
  ordinal : Nat
  question : String
  response : String
deriving DecidableEq

/-- Shallow embedding of the capture loop of
startOpenAIQuestioningSequence: the list of response records pushed,
in push order.  Iteration i of List.range questionCount handles
question i + 1 (iteration 0 of the source loop speaks only the
introduction and pushes nothing, so it is not represented). -/
def startOpenAIQuestioningSequence (inputs : Nat → IterInput) : List IntakeTurn :=
  (List.range questionCount).filterMap fun i =>
    let questionNumber := i + 1
    let inp := inputs questionNumber
    if inp.promptError then none
    else some ⟨questionNumber, questions.getD questionNumber "",
      (waitForUserResponse questionNumber inp.hasAudio inp.pollMs inp.energies).2⟩

/-- A listening window that expires (no audio track, or no poll
completed the response before the timeout) resolves with the timeout
sentinel text. -/
theorem waitForUserResponse_timeout_msg (qn : Nat) (ha : Bool) (p : Nat)
    (e : Nat → Nat) (h : ha = false ∨ detectPoll p e = none) :
    (waitForUserResponse qn ha p e).2 = timeoutSentinel qn := by
  rcases h with h | h
  · subst h
    rfl
  · cases ha
    · rfl
    · simp [waitForUserResponse, h]

/-- C4 as stated is false on the code: in a run over the fixed
question list in which the session never ends early (every iteration
runs to completion), a prompt playback rejection at question 2 is
swallowed by the per-iteration catch and the loop advances without
pushing a record, so only four turns are captured, with ordinals
1, 3, 4, 5 — question 2 is omitted instead of producing a sentinel
turn. -/
theorem sequence_gap_on_prompt_error :
    (startOpenAIQuestioningSequence
        (fun qn => ⟨decide (qn = 2), false, 0, fun _ => 0⟩)).map IntakeTurn.ordinal =
      [1, 3, 4, 5] ∧
    (startOpenAIQuestioningSequence
        (fun qn => ⟨decide (qn = 2), false, 0, fun _ => 0⟩)).length ≠ questionCount := by
  constructor <;> decide

/-- C4 amended: in every run of the sequencer over the fixed
5-question list in which the session does not end early and no
per-question prompt playback error occurs, the captured records form
exactly 5 turns in strict ordinal order 1..5 with no gaps, each
carrying its question text and the response of its own listening
window, independent of response content; a question whose listening
window expires without an answer still produces a turn containing the
timeout sentinel rather than being omitted. -/
theorem sequence_turns_ordered (inputs : Nat → IterInput)
    (hNoErr : ∀ qn, 1 ≤ qn → qn ≤ questionCount → (inputs qn).promptError = false) :
    (startOpenAIQuestioningSequence inputs).map IntakeTurn.ordinal = [1, 2, 3, 4, 5] ∧
    (startOpenAIQuestioningSequence inputs).length = questionCount ∧
    (∀ t ∈ startOpenAIQuestioningSequence inputs,
      t.question = questions.getD t.ordinal "" ∧
      t.response = (waitForUserResponse t.ordinal (inputs t.ordinal).hasAudio
        (inputs t.ordinal).pollMs (inputs t.ordinal).energies).2) ∧
    (∀ t ∈ startOpenAIQuestioningSequence inputs,
      ((inputs t.ordinal).hasAudio = false ∨
        detectPoll (inputs t.ordinal).pollMs (inputs t.ordinal).energies = none) →
      t.response = timeoutSentinel t.ordinal) := by
  have h1 := hNoErr 1 (by norm_num) (by decide)
  have h2 := hNoErr 2 (by norm_num) (by decide)
  have h3 := hNoErr 3 (by norm_num) (by decide)
  have h4 := hNoErr 4 (by norm_num) (by decide)
  have h5 := hNoErr 5 (by norm_num) (by decide)
  have hts : startOpenAIQuestioningSequence inputs =
      [⟨1, questions.getD 1 "", (waitForUserResponse 1 (inputs 1).hasAudio
          (inputs 1).pollMs (inputs 1).energies).2⟩,
       ⟨2, questions.getD 2 "", (waitForUserResponse 2 (inputs 2).hasAudio
          (inputs 2).pollMs (inputs 2).energies).2⟩,
       ⟨3, questions.getD 3 "", (waitForUserResponse 3 (inputs 3).hasAudio
          (inputs 3).pollMs (inputs 3).energies).2⟩,
       ⟨4, questions.getD 4 "", (waitForUserResponse 4 (inputs 4).hasAudio
          (inputs 4).pollMs (inputs 4).energies).2⟩,
       ⟨5, questions.getD 5 "", (waitForUserResponse 5 (inputs 5).hasAudio
          (inputs 5).pollMs (inputs 5).energies).2⟩] := by
    simp only [startOpenAIQuestioningSequence, questionCount,
      show List.range 5 = [0, 1, 2, 3, 4] from rfl, List.filterMap]
    norm_num [h1, h2, h3, h4, h5]
  refine ⟨by rw [hts]; rfl, by rw [hts]; rfl, ?_, ?_⟩
  · intro t ht
    rw [hts] at ht
    simp only [List.mem_cons, List.not_mem_nil, or_false] at ht
    rcases ht with rfl | rfl | rfl | rfl | rfl <;> exact ⟨rfl, rfl⟩
  · intro t ht hwin
    rw [hts] at ht
    simp only [List.mem_cons, List.not_mem_nil, or_false] at ht
    rcases ht with rfl | rfl | rfl | rfl | rfl <;>
      exact waitForUserResponse_timeout_msg _ _ _ _ hwin

/-- Closed instance of sequence_turns_ordered: with no playback errors
and silent listening windows, all five turns appear in order and each
carries its timeout sentinel. -/
theorem sequence_turns_ordered_witness :
    (startOpenAIQuestioningSequence (fun _ => ⟨false, false, 0, fun _ => 0⟩)).map
        IntakeTurn.ordinal = [1, 2, 3, 4, 5] ∧
    ∀ t ∈ startOpenAIQuestioningSequence (fun _ => ⟨false, false, 0, fun _ => 0⟩),
      t.response = timeoutSentinel t.ordinal := by
  have h := sequence_turns_ordered (fun _ => ⟨false, false, 0, fun _ => 0⟩)
    (fun _ _ _ => rfl)
  exact ⟨h.1, fun t ht => h.2.2.2 t ht (Or.inl rfl)⟩

/-! ### Summarization: generateTriageSummary

generateTriageSummary joins the responses into an analysis prompt and
POSTs /api/analyze-triage.  A fetch rejection, a non-ok response
(thrown as an error) or a body that fails to parse as JSON all land in
the catch, which returns a fixed fallback summary object; a parsed
analysis is spread into the returned summary.  The observable outcome
of the analysis call is the oracle; timestamps are passed in. -/

/-- Fields of a parsed analysis result. -/
structure TriageAnalysis where
  urgencyLevel : String
  urgencyReason : String
  keyFindings : List String
  recommendations : List String
  followUpActions : List String
  spokenSummary : String
deriving DecidableEq

/-- Observable outcome of the POST /api/analyze-triage call: the fetch
rejected, the response was not ok, the body failed to parse, or a
parsed analysis came back. -/
inductive AnalysisCallResult where
  | networkError
  | httpError
  | parseError
  | parsed (a : TriageAnalysis)
deriving DecidableEq

/-- The summary object generateTriageSummary returns. -/
structure TriageSummary where
  timestamp : String
  responses : List IntakeTurn
  urgencyLevel : String
  urgencyReason : String
  keyFindings : List String
  recommendations : List String
  followUpActions : List String
  spokenSummary : String
deriving DecidableEq

/-- Result of a call to generateTriageSummary: a returned summary, or
an error propagated to the caller. -/
inductive SummaryOutcome where
  | returned (s : TriageSummary)
  | raised (e : String)
deriving DecidableEq

/-- The deterministic fallback summary built in the catch block. -/
def fallbackTriageSummary (ts : String) (responses : List IntakeTurn) : TriageSummary :=
  ⟨ts, responses, "Medium", "Unable to analyze - recommend veterinary consultation",
   ["Triage information collected", "Analysis system unavailable"],
   ["Contact your veterinarian for proper assessment"],
   ["Schedule veterinary appointment", "Monitor pet closely"],
   "I have collected your information but cannot provide a detailed analysis at this time. I recommend contacting your veterinarian for a proper assessment of your pet\x27s condition."⟩

/-- Shallow embedding of generateTriageSummary: every failure mode of
the analysis call flows into the catch and yields the fallback
summary; success spreads the parsed analysis into the summary. -/
def generateTriageSummary (ts : String) (responses : List IntakeTurn)
    (call : AnalysisCallResult) : SummaryOutcome :=
  match call with
  | .parsed a => .returned ⟨ts, responses, a.urgencyLevel, a.urgencyReason,
      a.keyFindings, a.recommendations, a.followUpActions, a.spokenSummary⟩
  | _ => .returned (fallbackTriageSummary ts responses)

/-- C2: for every input list of turns, generateTriageSummary always
returns a summary (it never propagates an error to its caller), and
whenever the analysis call fails for any reason — network error,
non-ok response, or a result that fails to parse — the returned value
is the deterministic fallback summary, whose urgency level is Medium,
whose reason is non-empty and states analysis was unavailable, and
whose recommendations contain a direct veterinary consultation. -/
theorem generateTriageSummary_fallback_spec (ts : String) (responses : List IntakeTurn)
    (call : AnalysisCallResult) :
    (∃ s, generateTriageSummary ts responses call = .returned s) ∧
    ((∀ a, call ≠ .parsed a) →
      generateTriageSummary ts responses call =
        .returned (fallbackTriageSummary ts responses) ∧
      (fallbackTriageSummary ts responses).urgencyLevel = "Medium" ∧
      (fallbackTriageSummary ts responses).urgencyReason =
        "Unable to analyze - recommend veterinary consultation" ∧
      (fallbackTriageSummary ts responses).urgencyReason ≠ "" ∧
      "Contact your veterinarian for proper assessment" ∈
        (fallbackTriageSummary ts responses).recommendations) := by
  refine ⟨?_, ?_⟩
  · cases call <;> exact ⟨_, rfl⟩
  · intro h
    cases call with
    | parsed a => exact absurd rfl (h a)
    | networkError =>
      exact ⟨rfl, rfl, rfl, by simp [fallbackTriageSummary], by simp [fallbackTriageSummary]⟩
    | httpError =>
      exact ⟨rfl, rfl, rfl, by simp [fallbackTriageSummary], by simp [fallbackTriageSummary]⟩
    | parseError =>
      exact ⟨rfl, rfl, rfl, by simp [fallbackTriageSummary], by simp [fallbackTriageSummary]⟩

/-- Closed instance of generateTriageSummary_fallback_spec at a
network failure on an empty turn list. -/
theorem generateTriageSummary_fallback_spec_witness :
    generateTriageSummary "2026-01-01T00:00:00Z" [] .networkError =
      .returned (fallbackTriageSummary "2026-01-01T00:00:00Z" []) ∧
    (fallbackTriageSummary "2026-01-01T00:00:00Z" []).urgencyLevel = "Medium" := by
  have h := (generateTriageSummary_fallback_spec "2026-01-01T00:00:00Z" [] .networkError).2
    (fun a hcontra => by cases hcontra)
  exact ⟨h.1, h.2.1⟩

end VetTriage
